import Mathlib

/-!
Shallow embedding of the bike-connect backend (`src/api` of the repository):
relational rows are structures, each table is a `List` of rows, and every
endpoint body is a Lean function from the database state (plus the values the
runtime supplies: fresh UUIDs, the current timestamp, the password-hashing
functions) to the new state and the HTTP-level result.

Timestamps are modelled as natural numbers.  Latitude/longitude and other
float-valued columns are modelled as real numbers, since the only float
computation (the haversine distance) is transcendental mathematics; the
structural behaviour of every endpoint is independent of this choice.

An endpoint that raises `HTTPException` inside `session_scope` returns
without committing, so the error branches of the state-returning functions
below return the original state (rollback semantics of `db.py:session_scope`).
-/

namespace BikeConnect

/-- HTTP-level error as raised by `fastapi.HTTPException`: status code and
detail string, exactly as the routes construct them. -/
structure ApiError where
  status : Nat
  detail : String
  deriving DecidableEq, Repr

/-- `routes_auth.register`: `HTTPException(status_code=409, detail="Email already registered")`. -/
def conflictError : ApiError := ⟨409, "Email already registered"⟩

/-- `routes_auth.login`: `HTTPException(status_code=401, detail="Invalid credentials")`. -/
def invalidCredentialsError : ApiError := ⟨401, "Invalid credentials"⟩

/-- `routes_messaging._ensure_participant`:
`HTTPException(status_code=403, detail="Not a participant in this conversation")`. -/
def forbiddenError : ApiError := ⟨403, "Not a participant in this conversation"⟩

/-- Row of the `users` table (`db.py`). -/
structure UserRow where
  id : String
  email : String
  password_hash : String
  display_name : Option String
  created_at : Nat
  deriving DecidableEq, Repr

/-- Row of the `profiles` table (`db.py`): primary key `user_id`, six nullable
content columns, and the `updated_at` column with `default=_utcnow` and
`onupdate=_utcnow`. -/
structure ProfileRow where
  user_id : String
  display_name : Option String
  bio : Option String
  pace : Option String
  bike_type : Option String
  looking_for : Option String
  home_base : Option String
  updated_at : Nat
  deriving DecidableEq, Repr

/-- Row of the `locations` table (`db.py`): primary key `user_id`. -/
structure LocationRow where
  user_id : String
  lat : ℝ
  lng : ℝ
  updated_at : Nat

/-- Row of the `conversations` table (`db.py`). -/
structure ConversationRow where
  id : String
  created_at : Nat
  deriving DecidableEq, Repr

/-- Row of the `conversation_participants` table (`db.py`): composite key
`(conversation_id, user_id)`. -/
structure ParticipantRow where
  conversation_id : String
  user_id : String
  deriving DecidableEq, Repr

/-- Row of the `messages` table (`db.py`). -/
structure MessageRow where
  id : String
  conversation_id : String
  sender_id : String
  text : String
  created_at : Nat
  deriving DecidableEq, Repr

/-- Row of the `rides` table (`db.py`). -/
structure RideRow where
  id : String
  creator_id : Option String
  title : String
  date : Option String
  time : Option String
  pace : Option String
  distance_km : Option ℝ
  start : Option String
  notes : Option String
  created_at : Nat

/-- The whole relational store: one list of rows per table of `db.py`. -/
structure DB where
  users : List UserRow
  profiles : List ProfileRow
  locations : List LocationRow
  conversations : List ConversationRow
  participants : List ParticipantRow
  messages : List MessageRow
  rides : List RideRow

/-! ### Sorting

Python's `list.sort(key=...)` and SQL `ORDER BY ... ASC` are modelled by an
insertion sort on a key into a linear order; the claims only depend on the
output being sorted and having the same members. -/

def insertByKey {α β : Type _} (key : α → β) [LinearOrder β] (x : α) : List α → List α
  | [] => [x]
  | y :: ys => if key x ≤ key y then x :: y :: ys else y :: insertByKey key x ys

def sortByKey {α β : Type _} (key : α → β) [LinearOrder β] : List α → List α
  | [] => []
  | x :: xs => insertByKey key x (sortByKey key xs)

/-! ### Location & nearby (`routes_location.py`) -/

/-- `math.atan2 y x` (four-quadrant arctangent), modelled piecewise over ℝ. -/
noncomputable def atan2 (y x : ℝ) : ℝ :=
  if 0 < x then Real.arctan (y / x)
  else if x < 0 then
    (if 0 ≤ y then Real.arctan (y / x) + Real.pi else Real.arctan (y / x) - Real.pi)
  else
    (if 0 < y then Real.pi / 2 else if y < 0 then -(Real.pi / 2) else 0)

/-- `math.radians x`: degrees to radians. -/
noncomputable def radians (x : ℝ) : ℝ := x * Real.pi / 180

/-- `routes_location._haversine_km`: great-circle distance with Earth radius
6371.0 km, transcribed term by term from the source. -/
noncomputable def haversine_km (lat1 lng1 lat2 lng2 : ℝ) : ℝ :=
  let r : ℝ := 6371.0
  let p1 := radians lat1
  let p2 := radians lat2
  let dlat := radians (lat2 - lat1)
  let dlng := radians (lng2 - lng1)
  let a := Real.sin (dlat / 2) ^ 2 + Real.cos p1 * Real.cos p2 * Real.sin (dlng / 2) ^ 2
  let c := 2 * atan2 (Real.sqrt a) (Real.sqrt (1 - a))
  r * c

/-- One entry of the `/nearby` response (`schemas.NearbyUserItem`). -/
structure NearbyUserItem where
  user_id : String
  display_name : Option String
  email : Option String
  pace : Option String
  bike_type : Option String
  distance_km : ℝ

/-- The row the `/nearby` SELECT builds for user `u`, at computed distance
`dist`: the outer join to `profiles` contributes `pace` and `bike_type` from
the matching profile row, if any. -/
def mkNearbyItem (s : DB) (u : UserRow) (dist : ℝ) :
    NearbyUserItem :=
  let prof := s.profiles.find? (fun p => p.user_id == u.id)
  { user_id := u.id
    display_name := u.display_name
    email := some u.email
    pace := prof.bind (·.pace)
    bike_type := prof.bind (·.bike_type)
    distance_km := dist }

/-- `routes_location.nearby_search`: inner-join `users` with `locations`,
outer-join `profiles`, exclude the caller, filter by haversine distance
`≤ radius_km`, and sort ascending by distance. -/
noncomputable def nearby_search (s : DB) (lat lng radius_km : ℝ) (callerId : String) :
    List NearbyUserItem :=
  let rows := s.users.flatMap (fun u =>
    if u.id = callerId then []
    else s.locations.filterMap (fun l => if l.user_id = u.id then some (u, l) else none))
  let items := rows.filterMap (fun ul =>
    let dist := haversine_km lat lng ul.2.lat ul.2.lng
    if dist ≤ radius_km then some (mkNearbyItem s ul.1 dist) else none)
  sortByKey (·.distance_km) items

/-- `routes_location.update_location`: upsert of the caller's `locations`
row — update in place when a row exists, insert otherwise.  Only the
`locations` table is touched. -/
noncomputable def update_location (s : DB) (callerId : String) (lat lng : ℝ) (now : Nat) :
    DB :=
  if s.locations.any (fun l => l.user_id == callerId) then
    { s with locations := s.locations.map (fun l =>
        if l.user_id == callerId then { l with lat := lat, lng := lng, updated_at := now }
        else l) }
  else
    { s with locations := s.locations ++ [⟨callerId, lat, lng, now⟩] }

/-! ### Boundary validation (`schemas.py`)

Pydantic validation of request bodies, modelled as partial parsers from raw
JSON-ish inputs (`Option` = field absent or null).  `RegisterRequest` declares
`email: str` with no length constraint and `password: str` with
`min_length=6`; `RideCreateRequest` declares `title: str` with no length
constraint; `SendMessageRequest` declares `text: str` with `min_length=1`. -/

/-- Raw body of `POST /auth/register` before validation. -/
structure RegisterRaw where
  email : Option String
  password : Option String
  display_name : Option String
  deriving DecidableEq, Repr

/-- Validated `schemas.RegisterRequest`. -/
structure RegisterRequest where
  email : String
  password : String
  display_name : Option String
  deriving DecidableEq, Repr

/-- Pydantic validation of `schemas.RegisterRequest`: `email` must be present
(any string), `password` must be present with at least 6 characters,
`display_name` is optional. -/
def validateRegister (raw : RegisterRaw) : Option RegisterRequest :=
  match raw.email, raw.password with
  | some e, some p => if 6 ≤ p.length then some ⟨e, p, raw.display_name⟩ else none
  | _, _ => none

/-- Raw body of `POST /rides` before validation. -/
structure RideCreateRaw where
  title : Option String
  date : Option String
  time : Option String
  pace : Option String
  distance_km : Option ℝ
  start : Option String
  notes : Option String

/-- Validated `schemas.RideCreateRequest`. -/
structure RideCreateRequest where
  title : String
  date : Option String
  time : Option String
  pace : Option String
  distance_km : Option ℝ
  start : Option String
  notes : Option String

/-- Pydantic validation of `schemas.RideCreateRequest`: `title` must be
present (any string, no length constraint); every other field is optional and
passed through. -/
def validateRideCreate (raw : RideCreateRaw) : Option RideCreateRequest :=
  match raw.title with
  | some t => some ⟨t, raw.date, raw.time, raw.pace, raw.distance_km, raw.start, raw.notes⟩
  | none => none

/-! ### Auth (`routes_auth.py`) -/

/-- Response of `/auth/register` and `/me` (`schemas.MeResponse`). -/
structure MeResponse where
  id : String
  email : String
  display_name : Option String
  deriving DecidableEq, Repr

/-- `routes_auth.register` body: reject with 409 when a `users` row with the
same email exists (nothing committed), otherwise insert the `users` row and
the default `profiles` row in one transaction.  `newId` stands for the
generated `uuid.uuid4()`, `hashPassword` for `security.hash_password`, `now`
for the column defaults' `_utcnow()`. -/
def register (s : DB) (req : RegisterRequest) (newId : String)
    (hashPassword : String → String) (now : Nat) : DB × Except ApiError MeResponse :=
  if s.users.any (fun u => u.email == req.email) then
    (s, .error conflictError)
  else
    ({ s with
        users := s.users ++
          [⟨newId, req.email, hashPassword req.password, req.display_name, now⟩]
        profiles := s.profiles ++
          [⟨newId, req.display_name, some "", some "casual", some "road",
            some "friends", some "", now⟩] },
     .ok ⟨newId, req.email, req.display_name⟩)

/-- `POST /auth/register` as seen from the transport boundary: pydantic
validation first, the handler only on success.  A validation failure is a 422
before any domain logic runs, so the state is unchanged. -/
def registerEndpoint (s : DB) (raw : RegisterRaw) (newId : String)
    (hashPassword : String → String) (now : Nat) :
    DB × Option (Except ApiError MeResponse) :=
  match validateRegister raw with
  | none => (s, none)
  | some req =>
    let r := register s req newId hashPassword now
    (r.1, some r.2)

/-- The token returned by `security.create_access_token`, abstracted to its
subject claim. -/
structure TokenModel where
  sub : String
  deriving DecidableEq, Repr

/-- `routes_auth.login`: look up the first `users` row by email; unknown email
and failed password verification both produce the identical 401
"Invalid credentials" error; on success issue a token whose subject is the
user's id.  `verifyPassword` stands for `security.verify_password`. -/
def login (s : DB) (verifyPassword : String → String → Bool)
    (email password : String) : Except ApiError TokenModel :=
  match s.users.find? (fun u => u.email == email) with
  | none => .error invalidCredentialsError
  | some row =>
    if verifyPassword password row.password_hash then .ok ⟨row.id⟩
    else .error invalidCredentialsError

/-! ### Profiles (`routes_profiles.py`) -/

/-- `schemas.ProfileUpdateRequest`: six optional fields; `None` means
"not supplied" (the handler drops `None` values from the update dict). -/
structure ProfileUpdateRequest where
  display_name : Option String
  bio : Option String
  pace : Option String
  bike_type : Option String
  looking_for : Option String
  home_base : Option String
  deriving DecidableEq, Repr

/-- Effect of `update(profiles).values(**values)` on one row: each column in
the dict of non-null supplied fields takes the supplied value, every other
content column keeps its value, and `updated_at` is set by the column's
`onupdate=_utcnow`. -/
def applyProfileUpdate (p : ProfileRow) (req : ProfileUpdateRequest) (now : Nat) :
    ProfileRow :=
  { user_id := p.user_id
    display_name := Option.or req.display_name p.display_name
    bio := Option.or req.bio p.bio
    pace := Option.or req.pace p.pace
    bike_type := Option.or req.bike_type p.bike_type
    looking_for := Option.or req.looking_for p.looking_for
    home_base := Option.or req.home_base p.home_base
    updated_at := now }

/-- The row `insert(profiles).values(user_id=..., **values)` creates when the
caller has no profile yet: exactly the supplied non-null fields, the other
content columns NULL, `updated_at` from the column default `_utcnow`. -/
def freshProfileRow (callerId : String) (req : ProfileUpdateRequest) (now : Nat) :
    ProfileRow :=
  ⟨callerId, req.display_name, req.bio, req.pace, req.bike_type,
   req.looking_for, req.home_base, now⟩

/-- `routes_profiles.update_me`: update the caller's `profiles` row in place
(insert a fresh one when absent), then, when `display_name` was supplied,
update `users.display_name` in the same transaction; finally re-select and
return the caller's profile row. -/
def update_me (s : DB) (callerId : String) (req : ProfileUpdateRequest) (now : Nat) :
    DB × Option ProfileRow :=
  let s1 :=
    if s.profiles.any (fun p => p.user_id == callerId) then
      { s with profiles := s.profiles.map (fun p =>
          if p.user_id == callerId then applyProfileUpdate p req now else p) }
    else
      { s with profiles := s.profiles ++ [freshProfileRow callerId req now] }
  let s2 :=
    match req.display_name with
    | some v =>
      { s1 with users := s1.users.map (fun u =>
          if u.id == callerId then { u with display_name := some v } else u) }
    | none => s1
  (s2, s2.profiles.find? (fun p => p.user_id == callerId))

/-! ### Messaging (`routes_messaging.py`) -/

/-- `routes_messaging._ensure_participant`'s membership query: does a
`conversation_participants` row with this `(conversation_id, user_id)` pair
exist? -/
def isParticipant (s : DB) (conversationId userId : String) : Bool :=
  s.participants.any (fun p =>
    p.conversation_id == conversationId && p.user_id == userId)

/-- One entry of the messages response (`schemas.MessageItem`). -/
structure MessageItem where
  id : String
  text : String
  created_at : Nat
  is_mine : Bool
  deriving DecidableEq, Repr

/-- How `routes_messaging.get_messages` renders a stored message row for the
caller: `is_mine` is `sender_id == caller`. -/
def mkMessageItem (m : MessageRow) (callerId : String) : MessageItem :=
  ⟨m.id, m.text, m.created_at, m.sender_id == callerId⟩

/-- `routes_messaging.get_messages`: `_ensure_participant` raises 403 when the
caller has no participant row (the query never touches `conversations`, so a
nonexistent conversation id takes the same path); otherwise return the
conversation's messages ordered by `created_at` ascending. -/
def get_messages (s : DB) (conversationId callerId : String) :
    Except ApiError (List MessageItem) :=
  if isParticipant s conversationId callerId then
    .ok ((sortByKey (·.created_at)
          (s.messages.filter (fun m => m.conversation_id == conversationId))).map
        (fun m => mkMessageItem m callerId))
  else
    .error forbiddenError

/-- `routes_messaging.send_message`: when no `conversations` row with this id
exists, insert one and a participant row for the caller; then
`_ensure_participant`; then insert the message row.  A 403 aborts the
transaction, so that branch returns the original state.  `msgId` stands for
the generated `uuid.uuid4()`, `now` for `datetime.now(timezone.utc)`. -/
def send_message (s : DB) (conversationId callerId text msgId : String) (now : Nat) :
    DB × Except ApiError MessageItem :=
  let s1 :=
    if s.conversations.any (fun c => c.id == conversationId) then s
    else
      { s with
          conversations := s.conversations ++ [⟨conversationId, now⟩]
          participants := s.participants ++ [⟨conversationId, callerId⟩] }
  if isParticipant s1 conversationId callerId then
    ({ s1 with messages := s1.messages ++ [⟨msgId, conversationId, callerId, text, now⟩] },
     .ok ⟨msgId, text, now, true⟩)
  else
    (s, .error forbiddenError)

/-! ### Rides (`routes_rides.py`) -/

/-- `routes_rides.create_ride`: insert a `rides` row with a fresh id, the
caller as `creator_id`, and the request fields verbatim; re-select and return
it.  `rideId` stands for the generated `uuid.uuid4()`, `now` for the
`created_at` column default. -/
def create_ride (s : DB) (callerId : String) (req : RideCreateRequest)
    (rideId : String) (now : Nat) : DB × Option RideRow :=
  let row : RideRow :=
    ⟨rideId, some callerId, req.title, req.date, req.time, req.pace,
     req.distance_km, req.start, req.notes, now⟩
  let s' := { s with rides := s.rides ++ [row] }
  (s', s'.rides.find? (fun r => r.id == rideId))

/-- `POST /rides` as seen from the transport boundary: pydantic validation of
`RideCreateRequest` first, the handler only on success. -/
def createRideEndpoint (s : DB) (callerId : String) (raw : RideCreateRaw)
    (rideId : String) (now : Nat) : DB × Option (Option RideRow) :=
  match validateRideCreate raw with
  | none => (s, none)
  | some req =>
    let r := create_ride s callerId req rideId now
    (r.1, some r.2)

/-- Key uniqueness of the `locations` table (`user_id` is its primary key). -/
def UniqueLocKeys (s : DB) : Prop :=
  s.locations.Pairwise (fun a b => a.user_id ≠ b.user_id)

/-- Referential integrity of `conversation_participants.conversation_id`
(foreign key into `conversations` in `db.py`): every participant row points
at an existing conversation row. -/
def ParticipantsFk (s : DB) : Prop :=
  ∀ p ∈ s.participants, ∃ c ∈ s.conversations, c.id = p.conversation_id

/-! ### Concrete states used to exercise the theorems -/

/-- The empty store (all seven tables empty). -/
def dbEmpty : DB := ⟨[], [], [], [], [], [], []⟩

/-- A store with two users, one of whom (`u1`) has a location at the origin
and no profile row. -/
def dbTwoUsers : DB :=
  { users := [⟨"caller", "c@example.com", "h0", none, 0⟩,
              ⟨"u1", "a@example.com", "h1", none, 0⟩]
    profiles := []
    locations := [⟨"u1", 0, 0, 0⟩]
    conversations := []
    participants := []
    messages := []
    rides := [] }

/-- A store with one user whose profile row was last updated at time 0. -/
def dbOneProfile : DB :=
  { users := [⟨"u1", "a@example.com", "h1", some "Nia", 0⟩]
    profiles := [⟨"u1", some "Nia", some "old bio", some "casual", some "road",
                  some "friends", some "", 0⟩]
    locations := []
    conversations := []
    participants := []
    messages := []
    rides := [] }

/-- A profile update supplying only `bio`. -/
def reqBioOnly : ProfileUpdateRequest := ⟨none, some "new", none, none, none, none⟩

/-- A store with one conversation `c1` whose single participant is `u1`,
holding one message, plus an outsider `u2`. -/
def dbOneConversation : DB :=
  { users := [⟨"u1", "a@example.com", "h1", none, 0⟩,
              ⟨"u2", "b@example.com", "h2", none, 0⟩]
    profiles := []
    locations := []
    conversations := [⟨"c1", 0⟩]
    participants := [⟨"c1", "u1"⟩]
    messages := [⟨"m1", "c1", "u1", "hello", 1⟩]
    rides := [] }

/-!
## Theorems

General lemmas about the embedded operations first, then one theorem per
claim of the specification.
-/

theorem mem_insertByKey {α β : Type _} (key : α → β) [LinearOrder β] (x a : α) (l : List α) :
    a ∈ insertByKey key x l ↔ a = x ∨ a ∈ l := by
  induction l with
  | nil => simp [insertByKey]
  | cons y ys ih =>
    by_cases h : key x ≤ key y
    · simp [insertByKey, h]
    · simp [insertByKey, h, ih]
      tauto

theorem pairwise_insertByKey {α β : Type _} (key : α → β) [LinearOrder β] (x : α) (l : List α)
    (h : l.Pairwise (fun a b => key a ≤ key b)) :
    (insertByKey key x l).Pairwise (fun a b => key a ≤ key b) := by
  induction l with
  | nil => simp [insertByKey]
  | cons y ys ih =>
    rcases List.pairwise_cons.mp h with ⟨hy, hys⟩
    by_cases hxy : key x ≤ key y
    · rw [insertByKey, if_pos hxy]
      refine List.pairwise_cons.mpr ⟨?_, h⟩
      intro b hb
      rcases List.mem_cons.mp hb with rfl | hb
      · exact hxy
      · exact le_trans hxy (hy b hb)
    · rw [insertByKey, if_neg hxy]
      refine List.pairwise_cons.mpr ⟨?_, ih hys⟩
      intro b hb
      rcases (mem_insertByKey key x b ys).mp hb with rfl | hb
      · exact le_of_not_le hxy
      · exact hy b hb

theorem mem_sortByKey {α β : Type _} (key : α → β) [LinearOrder β] (a : α) (l : List α) :
    a ∈ sortByKey key l ↔ a ∈ l := by
  induction l with
  | nil => simp [sortByKey]
  | cons x xs ih => simp [sortByKey, mem_insertByKey, ih]

theorem pairwise_sortByKey {α β : Type _} (key : α → β) [LinearOrder β] (l : List α) :
    (sortByKey key l).Pairwise (fun a b => key a ≤ key b) := by
  induction l with
  | nil => simp [sortByKey]
  | cons x xs ih => exact pairwise_insertByKey key x _ ih

/-- A point is at haversine distance 0 from itself. -/
theorem haversine_km_self (lat lng : ℝ) : haversine_km lat lng lat lng = 0 := by
  simp [haversine_km, radians, atan2, sub_self, Real.sqrt_zero, Real.sqrt_one,
    Real.arctan_zero, one_pos]

/-- Membership in the `/nearby` result: exactly the items built from a
non-caller user joined with one of its location rows whose haversine distance
from the query point is within the radius. -/
theorem mem_nearby_search (s : DB) (lat lng radius_km : ℝ) (callerId : String)
    (it : NearbyUserItem) :
    it ∈ nearby_search s lat lng radius_km callerId ↔
      ∃ u ∈ s.users, ∃ l ∈ s.locations, l.user_id = u.id ∧ u.id ≠ callerId ∧
        haversine_km lat lng l.lat l.lng ≤ radius_km ∧
        it = mkNearbyItem s u (haversine_km lat lng l.lat l.lng) := by
  simp only [nearby_search, mem_sortByKey, List.mem_filterMap, List.mem_flatMap]
  constructor
  · rintro ⟨⟨u, l⟩, ⟨u', hu', hul⟩, hf⟩
    by_cases hc : u'.id = callerId
    · simp [hc] at hul
    · rw [if_neg hc] at hul
      rcases List.mem_filterMap.mp hul with ⟨l', hl', hmk⟩
      by_cases hk : l'.user_id = u'.id
      · rw [if_pos hk] at hmk
        have h2 := Option.some.inj hmk
        injection h2 with h3 h4
        subst h3; subst h4
        simp only at hf
        by_cases hd : haversine_km lat lng l'.lat l'.lng ≤ radius_km
        · rw [if_pos hd] at hf
          exact ⟨u', hu', l', hl', hk, hc, hd, (Option.some.inj hf).symm⟩
        · rw [if_neg hd] at hf
          exact absurd hf (by simp)
      · rw [if_neg hk] at hmk
        exact absurd hmk (by simp)
  · rintro ⟨u, hu, l, hl, hlu, hne, hdist, rfl⟩
    refine ⟨(u, l), ⟨u, hu, ?_⟩, ?_⟩
    · rw [if_neg hne]
      exact List.mem_filterMap.mpr ⟨l, hl, by rw [if_pos hlu]⟩
    · simp only
      rw [if_pos hdist]

/-- C1: every authenticated nearby query builds its result from exactly the
users other than the caller that have a `locations` row, keeps an entry iff
its haversine distance (Earth radius 6371.0 km) from the query point is at
most `radius_km`, and returns the list sorted ascending by `distance_km`. -/
theorem nearby_search_matches_spec (s : DB) (lat lng radius_km : ℝ) (callerId : String) :
    (∀ it, it ∈ nearby_search s lat lng radius_km callerId ↔
      ∃ u ∈ s.users, ∃ l ∈ s.locations, l.user_id = u.id ∧ u.id ≠ callerId ∧
        haversine_km lat lng l.lat l.lng ≤ radius_km ∧
        it = mkNearbyItem s u (haversine_km lat lng l.lat l.lng)) ∧
    (nearby_search s lat lng radius_km callerId).Pairwise
      (fun a b => a.distance_km ≤ b.distance_km) :=
  ⟨fun it => mem_nearby_search s lat lng radius_km callerId it,
   pairwise_sortByKey _ _⟩

/-- Witness for C1 at a concrete store and query. -/
theorem nearby_search_matches_spec_witness :
    (nearby_search dbTwoUsers 0 0 1 "caller").Pairwise
      (fun a b => a.distance_km ≤ b.distance_km) :=
  (nearby_search_matches_spec dbTwoUsers 0 0 1 "caller").2

/-- C9: a user with a `locations` row but no `profiles` row still appears in
nearby results when within radius (the profile join is an outer join), with
`pace` and `bike_type` reported as null. -/
theorem nearby_includes_profileless (s : DB) (lat lng radius_km : ℝ)
    (callerId : String) (u : UserRow) (l : LocationRow)
    (hu : u ∈ s.users) (hne : u.id ≠ callerId) (hl : l ∈ s.locations)
    (hlu : l.user_id = u.id)
    (hnoprof : ∀ p ∈ s.profiles, p.user_id ≠ u.id)
    (hdist : haversine_km lat lng l.lat l.lng ≤ radius_km) :
    ∃ it ∈ nearby_search s lat lng radius_km callerId,
      it.user_id = u.id ∧ it.pace = none ∧ it.bike_type = none := by
  have hfind : s.profiles.find? (fun p => p.user_id == u.id) = none := by
    rw [List.find?_eq_none]
    intro p hp
    simpa using hnoprof p hp
  refine ⟨mkNearbyItem s u (haversine_km lat lng l.lat l.lng),
    (mem_nearby_search s lat lng radius_km callerId _).mpr
      ⟨u, hu, l, hl, hlu, hne, hdist, rfl⟩, rfl, ?_, ?_⟩
  · simp [mkNearbyItem, hfind]
  · simp [mkNearbyItem, hfind]

/-- Witness for C9: in `dbTwoUsers`, user `u1` has a location at the origin
and no profile row, and shows up in a radius-1 query from the origin with
null `pace` and `bike_type`. -/
theorem nearby_includes_profileless_witness :
    ∃ it ∈ nearby_search dbTwoUsers 0 0 1 "caller",
      it.user_id = "u1" ∧ it.pace = none ∧ it.bike_type = none :=
  nearby_includes_profileless dbTwoUsers 0 0 1 "caller"
    ⟨"u1", "a@example.com", "h1", none, 0⟩ ⟨"u1", 0, 0, 0⟩
    (by simp [dbTwoUsers]) (by decide) (by simp [dbTwoUsers]) rfl
    (by simp [dbTwoUsers])
    (by rw [haversine_km_self]; norm_num)

/-- When a `users` row with the requested email exists, `register` takes the
409 branch and commits nothing. -/
theorem register_duplicate_email (t : DB) (r : RegisterRequest) (i : String)
    (hp : String → String) (n : Nat) (h : ∃ u ∈ t.users, u.email = r.email) :
    register t r i hp n = (t, .error conflictError) := by
  obtain ⟨u, hu, he⟩ := h
  have : t.users.any (fun v => v.email == r.email) = true :=
    List.any_eq_true.mpr ⟨u, hu, by simp [he]⟩
  simp [register, this]

/-- C2: registering with an email that already has a `users` row fails with
Conflict and leaves the store exactly as it was (no `users` row, no
`profiles` row); with a fresh email it creates the `users` row and the
default `profiles` row as one atomic unit; in particular, of two successive
registrations with the same email the second fails and changes nothing. -/
theorem register_conflict_and_atomicity (s : DB) (req : RegisterRequest)
    (newId : String) (hashPassword : String → String) (now : Nat) :
    ((∃ u ∈ s.users, u.email = req.email) →
      register s req newId hashPassword now = (s, .error conflictError)) ∧
    ((∀ u ∈ s.users, u.email ≠ req.email) →
      register s req newId hashPassword now =
        ({ s with
            users := s.users ++
              [⟨newId, req.email, hashPassword req.password, req.display_name, now⟩]
            profiles := s.profiles ++
              [⟨newId, req.display_name, some "", some "casual", some "road",
                some "friends", some "", now⟩] },
         .ok ⟨newId, req.email, req.display_name⟩)) ∧
    (∀ req2 : RegisterRequest, req2.email = req.email →
      ∀ id2 hp2 now2, (∀ u ∈ s.users, u.email ≠ req.email) →
        register (register s req newId hashPassword now).1 req2 id2 hp2 now2 =
          ((register s req newId hashPassword now).1, .error conflictError)) := by
  have hneg : (∀ u ∈ s.users, u.email ≠ req.email) →
      s.users.any (fun v => v.email == req.email) = false := by
    intro h
    rw [List.any_eq_false]
    intro u hu
    simp [h u hu]
  refine ⟨register_duplicate_email s req newId hashPassword now, ?_, ?_⟩
  · intro h
    simp [register, hneg h]
  · intro req2 he2 id2 hp2 now2 h
    apply register_duplicate_email
    have hs1 : (register s req newId hashPassword now).1.users =
        s.users ++ [⟨newId, req.email, hashPassword req.password, req.display_name, now⟩] := by
      simp [register, hneg h]
    rw [hs1, he2]
    exact ⟨_, List.mem_append_right _ (List.mem_singleton.mpr rfl), rfl⟩

/-- Witness for C2: on the empty store, a first registration with `a@x`
succeeds and a second one with the same email fails with Conflict, leaving
the store exactly as after the first. -/
theorem register_conflict_and_atomicity_witness :
    (∀ u ∈ dbEmpty.users, u.email ≠ "a@x") ∧
    register (register dbEmpty ⟨"a@x", "123456", none⟩ "id1" (fun p => p) 0).1
        ⟨"a@x", "123456", none⟩ "id2" (fun p => p) 1 =
      ((register dbEmpty ⟨"a@x", "123456", none⟩ "id1" (fun p => p) 0).1,
       .error conflictError) :=
  ⟨by simp [dbEmpty],
   (register_conflict_and_atomicity dbEmpty ⟨"a@x", "123456", none⟩ "id1"
      (fun p => p) 0).2.2 ⟨"a@x", "123456", none⟩ rfl "id2" (fun p => p) 1
      (by simp [dbEmpty])⟩

/-- Counterexample to C6 as stated: the uniform login failure carries the
detail string `"Invalid credentials"` (capital `I`, from `routes_auth.login`),
not `"invalid credentials"` as the claim quotes it.  Shown at a concrete
store and an unknown email. -/
theorem login_error_message_capitalized :
    login dbOneProfile (fun p h => p == h) "nobody@example.com" "pw" =
      .error ⟨401, "Invalid credentials"⟩ ∧
    ("Invalid credentials" : String) ≠ "invalid credentials" := by
  constructor
  · rfl
  · decide

/-- C6 (amended): an unknown email and a failed password verification produce
the identical 401 error with detail `"Invalid credentials"`, so the two
failure causes are indistinguishable; for a stored row whose password
verifies, login succeeds with a token whose subject is that row's id. -/
theorem login_uniform_error_spec (s : DB) (verifyPassword : String → String → Bool)
    (email1 pw1 email2 pw2 : String) :
    (s.users.find? (fun u => u.email == email1) = none →
      login s verifyPassword email1 pw1 = .error ⟨401, "Invalid credentials"⟩) ∧
    (∀ row, s.users.find? (fun u => u.email == email2) = some row →
      verifyPassword pw2 row.password_hash = false →
      login s verifyPassword email2 pw2 = .error ⟨401, "Invalid credentials"⟩) ∧
    (∀ row, s.users.find? (fun u => u.email == email1) = none →
      s.users.find? (fun u => u.email == email2) = some row →
      verifyPassword pw2 row.password_hash = false →
      login s verifyPassword email1 pw1 = login s verifyPassword email2 pw2) ∧
    (∀ row, s.users.find? (fun u => u.email == email2) = some row →
      verifyPassword pw2 row.password_hash = true →
      login s verifyPassword email2 pw2 = .ok ⟨row.id⟩) := by
  refine ⟨?_, ?_, ?_, ?_⟩
  · intro h
    simp [login, h, invalidCredentialsError]
  · intro row hrow hv
    simp [login, hrow, hv, invalidCredentialsError]
  · intro row h1 hrow hv
    simp [login, h1, hrow, hv]
  · intro row hrow hv
    simp [login, hrow, hv]

/-- Witness for C6: in a concrete store, login with an unknown email and
login with a known email but wrong password return the very same error, and
login with the right password succeeds with the user's id as subject. -/
theorem login_uniform_error_spec_witness :
    login dbOneProfile (fun p h => p == h) "nobody@example.com" "pw" =
      login dbOneProfile (fun p h => p == h) "a@example.com" "wrong" ∧
    login dbOneProfile (fun p h => p == h) "a@example.com" "h1" = .ok ⟨"u1"⟩ :=
  ⟨(login_uniform_error_spec dbOneProfile (fun p h => p == h)
      "nobody@example.com" "pw" "a@example.com" "wrong").2.2.1
      ⟨"u1", "a@example.com", "h1", some "Nia", 0⟩ (by decide) (by decide) (by decide),
   (login_uniform_error_spec dbOneProfile (fun p h => p == h)
      "nobody@example.com" "pw" "a@example.com" "h1").2.2.2
      ⟨"u1", "a@example.com", "h1", some "Nia", 0⟩ (by decide) (by decide)⟩

/-- C4: `get_messages` fails with Forbidden exactly when the caller has no
participant row for the conversation — a nonexistent conversation id gives
the same Forbidden error — and on success returns the conversation's messages
sorted ascending by creation time, flagged `is_mine` exactly when the sender
is the caller. -/
theorem get_messages_spec (s : DB) (conversationId callerId : String) :
    (get_messages s conversationId callerId = .error forbiddenError ↔
      isParticipant s conversationId callerId = false) ∧
    ((∀ c ∈ s.conversations, c.id ≠ conversationId) → ParticipantsFk s →
      get_messages s conversationId callerId = .error forbiddenError) ∧
    (∀ items, get_messages s conversationId callerId = .ok items →
      items.Pairwise (fun a b => a.created_at ≤ b.created_at) ∧
      (∀ it ∈ items, ∃ m ∈ s.messages, m.conversation_id = conversationId ∧
        it = mkMessageItem m callerId ∧ (it.is_mine = true ↔ m.sender_id = callerId)) ∧
      (∀ m ∈ s.messages, m.conversation_id = conversationId →
        mkMessageItem m callerId ∈ items)) := by
  refine ⟨?_, ?_, ?_⟩
  · cases hp : isParticipant s conversationId callerId
    · simp [get_messages, hp]
    · simp [get_messages, hp]
  · intro hnc hfk
    have hp : isParticipant s conversationId callerId = false := by
      rw [isParticipant, List.any_eq_false]
      intro p hpmem
      rcases hfk p hpmem with ⟨c, hc, hcid⟩
      simp only [Bool.and_eq_true, beq_iff_eq, not_and]
      intro h1
      exact ((hnc c hc) (hcid.trans h1)).elim
    simp [get_messages, hp]
  · intro items hok
    rw [get_messages] at hok
    by_cases hp : isParticipant s conversationId callerId = true
    · rw [if_pos hp] at hok
      injection hok with hitems
      subst hitems
      have hsorted := pairwise_sortByKey (fun m : MessageRow => m.created_at)
        (s.messages.filter (fun m => m.conversation_id == conversationId))
      refine ⟨?_, ?_, ?_⟩
      · rw [List.pairwise_map]
        exact hsorted
      · intro it hit
        rw [List.mem_map] at hit
        obtain ⟨m, hm, rfl⟩ := hit
        rw [mem_sortByKey, List.mem_filter] at hm
        obtain ⟨hm1, hm2⟩ := hm
        exact ⟨m, hm1, by simpa using hm2, rfl, by simp [mkMessageItem]⟩
      · intro m hm hc
        rw [List.mem_map]
        refine ⟨m, ?_, rfl⟩
        rw [mem_sortByKey, List.mem_filter]
        exact ⟨hm, by simp [hc]⟩
    · rw [if_neg hp] at hok
      exact absurd hok (by simp)

/-- Witness for C4 in `dbOneConversation`: the non-participant `u2` is
rejected on the existing conversation `c1`, a nonexistent conversation `c9`
yields the same Forbidden error for `u1`, and the list `u1` gets back for
`c1` is sorted ascending by creation time. -/
theorem get_messages_spec_witness :
    get_messages dbOneConversation "c1" "u2" = .error forbiddenError ∧
    get_messages dbOneConversation "c9" "u1" = .error forbiddenError ∧
    ([⟨"m1", "hello", 1, true⟩] : List MessageItem).Pairwise
      (fun a b => a.created_at ≤ b.created_at) :=
  ⟨(get_messages_spec dbOneConversation "c1" "u2").1.mpr (by decide),
   (get_messages_spec dbOneConversation "c9" "u1").2.1 (by decide)
     (by unfold ParticipantsFk; decide),
   ((get_messages_spec dbOneConversation "c1" "u1").2.2
      [⟨"m1", "hello", 1, true⟩] rfl).1⟩

/-- C3: sending to a nonexistent conversation id creates the conversation
with the caller as its sole participant and the insert succeeds; sending to
an existing conversation the caller does not participate in fails with
Forbidden and inserts no message; a successful send stores the message with
the fresh id and current timestamp and returns it with `is_mine = true`. -/
theorem send_message_spec (s : DB) (conversationId callerId text msgId : String)
    (now : Nat) :
    ((∀ c ∈ s.conversations, c.id ≠ conversationId) →
      (∀ p ∈ s.participants, p.conversation_id ≠ conversationId) →
      (send_message s conversationId callerId text msgId now).1.participants.filter
          (fun p => p.conversation_id == conversationId) = [⟨conversationId, callerId⟩] ∧
      ⟨conversationId, now⟩ ∈
        (send_message s conversationId callerId text msgId now).1.conversations ∧
      (send_message s conversationId callerId text msgId now).2 =
        .ok ⟨msgId, text, now, true⟩ ∧
      (send_message s conversationId callerId text msgId now).1.messages =
        s.messages ++ [⟨msgId, conversationId, callerId, text, now⟩]) ∧
    ((∃ c ∈ s.conversations, c.id = conversationId) →
      isParticipant s conversationId callerId = false →
      send_message s conversationId callerId text msgId now = (s, .error forbiddenError)) ∧
    (∀ it, (send_message s conversationId callerId text msgId now).2 = .ok it →
      it = ⟨msgId, text, now, true⟩ ∧
      (⟨msgId, conversationId, callerId, text, now⟩ : MessageRow) ∈
        (send_message s conversationId callerId text msgId now).1.messages) := by
  refine ⟨?_, ?_, ?_⟩
  · intro hnc hnp
    have hconv : s.conversations.any (fun c => c.id == conversationId) = false := by
      rw [List.any_eq_false]
      intro c hc
      simp [hnc c hc]
    have hpart : isParticipant
        { s with conversations := s.conversations ++ [⟨conversationId, now⟩]
                 participants := s.participants ++ [⟨conversationId, callerId⟩] }
        conversationId callerId = true := by
      simp [isParticipant]
    have hfilter : (s.participants ++ [(⟨conversationId, callerId⟩ : ParticipantRow)]).filter
        (fun p => p.conversation_id == conversationId) = [⟨conversationId, callerId⟩] := by
      rw [List.filter_append]
      have h1 : s.participants.filter (fun p => p.conversation_id == conversationId) = [] := by
        rw [List.filter_eq_nil_iff]
        intro p hp
        simp [hnp p hp]
      rw [h1]
      simp
    simp only [send_message, hconv, Bool.false_eq_true, if_false, hpart, if_true]
    exact ⟨hfilter, List.mem_append_right _ (List.mem_singleton.mpr rfl),
      by trivial, by trivial⟩
  · intro hex hp
    have hconv : s.conversations.any (fun c => c.id == conversationId) = true := by
      obtain ⟨c, hc, hcid⟩ := hex
      exact List.any_eq_true.mpr ⟨c, hc, by simp [hcid]⟩
    simp [send_message, hconv, hp]
  · intro it hok
    rw [send_message] at hok ⊢
    by_cases hconv : s.conversations.any (fun c => c.id == conversationId) = true
    · rw [if_pos hconv] at hok ⊢
      by_cases hp : isParticipant s conversationId callerId = true
      · rw [if_pos hp] at hok ⊢
        injection hok with h1
        exact ⟨h1.symm, List.mem_append_right _ (List.mem_singleton.mpr rfl)⟩
      · rw [if_neg hp] at hok
        exact absurd hok (by simp)
    · rw [if_neg hconv] at hok ⊢
      by_cases hp : isParticipant
          { s with conversations := s.conversations ++ [⟨conversationId, now⟩]
                   participants := s.participants ++ [⟨conversationId, callerId⟩] }
          conversationId callerId = true
      · rw [if_pos hp] at hok ⊢
        injection hok with h1
        exact ⟨h1.symm, List.mem_append_right _ (List.mem_singleton.mpr rfl)⟩
      · rw [if_neg hp] at hok
        exact absurd hok (by simp)

/-- Witness for C3 in `dbOneConversation`: sending to the fresh id `c2`
auto-creates it with `u1` as sole participant and succeeds, while `u2`
sending to the existing `c1` is rejected with Forbidden and the store is
untouched. -/
theorem send_message_spec_witness :
    ((send_message dbOneConversation "c2" "u1" "hi" "m2" 2).1.participants.filter
        (fun p => p.conversation_id == "c2") = [⟨"c2", "u1"⟩] ∧
      (⟨"c2", 2⟩ : ConversationRow) ∈
        (send_message dbOneConversation "c2" "u1" "hi" "m2" 2).1.conversations ∧
      (send_message dbOneConversation "c2" "u1" "hi" "m2" 2).2 =
        .ok ⟨"m2", "hi", 2, true⟩ ∧
      (send_message dbOneConversation "c2" "u1" "hi" "m2" 2).1.messages =
        dbOneConversation.messages ++ [⟨"m2", "c2", "u1", "hi", 2⟩]) ∧
    send_message dbOneConversation "c1" "u2" "intrude" "m3" 3 =
      (dbOneConversation, .error forbiddenError) :=
  ⟨(send_message_spec dbOneConversation "c2" "u1" "hi" "m2" 2).1
      (by decide) (by decide),
   (send_message_spec dbOneConversation "c1" "u2" "intrude" "m3" 3).2.1
      (by decide) (by decide)⟩

/-- Counterexample to C5 as stated: updating only `bio` does not leave every
other profile field unchanged — the `updated_at` column (whose SQLAlchemy
definition carries `onupdate=_utcnow`) moves from 0 to the current time 1. -/
theorem update_me_changes_updated_at :
    dbOneProfile.profiles.map (·.updated_at) = [0] ∧
    (update_me dbOneProfile "u1" reqBioOnly 1).1.profiles.map (·.updated_at) = [1] ∧
    (1 : Nat) ≠ 0 := by
  refine ⟨rfl, ?_, by decide⟩
  decide

/-- C5 (amended): `update_me` changes exactly the supplied non-null fields of
the caller's profile row, preserves every other content field, and sets
`updated_at` to the current time; the `users` row's display name is updated
iff `display_name` was supplied; when the caller has no profile row, a row
with exactly the supplied non-null fields (other content fields null,
`updated_at` = now) is appended. -/
theorem update_me_partial_update_spec (s : DB) (callerId : String)
    (req : ProfileUpdateRequest) (now : Nat) :
    ((s.profiles.any (fun p => p.user_id == callerId) = true →
      (update_me s callerId req now).1.profiles = s.profiles.map (fun p =>
        if p.user_id == callerId then applyProfileUpdate p req now else p)) ∧
    (∀ p : ProfileRow,
      (applyProfileUpdate p req now).user_id = p.user_id ∧
      (applyProfileUpdate p req now).display_name =
        (match req.display_name with | some v => some v | none => p.display_name) ∧
      (applyProfileUpdate p req now).bio =
        (match req.bio with | some v => some v | none => p.bio) ∧
      (applyProfileUpdate p req now).pace =
        (match req.pace with | some v => some v | none => p.pace) ∧
      (applyProfileUpdate p req now).bike_type =
        (match req.bike_type with | some v => some v | none => p.bike_type) ∧
      (applyProfileUpdate p req now).looking_for =
        (match req.looking_for with | some v => some v | none => p.looking_for) ∧
      (applyProfileUpdate p req now).home_base =
        (match req.home_base with | some v => some v | none => p.home_base) ∧
      (applyProfileUpdate p req now).updated_at = now) ∧
    (s.profiles.any (fun p => p.user_id == callerId) = false →
      (update_me s callerId req now).1.profiles =
        s.profiles ++ [⟨callerId, req.display_name, req.bio, req.pace,
          req.bike_type, req.looking_for, req.home_base, now⟩]) ∧
    (∀ v, req.display_name = some v →
      (update_me s callerId req now).1.users = s.users.map (fun u =>
        if u.id == callerId then { u with display_name := some v } else u)) ∧
    (req.display_name = none → (update_me s callerId req now).1.users = s.users)) := by
  refine ⟨?_, ?_, ?_, ?_, ?_⟩
  · intro hex
    cases hdn : req.display_name <;> simp [update_me, hex, hdn]
  · intro p
    refine ⟨rfl, ?_, ?_, ?_, ?_, ?_, ?_, rfl⟩ <;>
      simp [applyProfileUpdate, Option.or] <;>
      cases req.display_name <;> cases req.bio <;> cases req.pace <;>
        cases req.bike_type <;> cases req.looking_for <;> cases req.home_base <;> rfl
  · intro hex
    cases hdn : req.display_name <;>
      simp [update_me, hex, hdn, freshProfileRow]
  · intro v hdn
    cases hex : s.profiles.any (fun p => p.user_id == callerId) <;>
      simp [update_me, hex, hdn]
  · intro hdn
    cases hex : s.profiles.any (fun p => p.user_id == callerId) <;>
      simp [update_me, hex, hdn]

/-- Witness for C5: in `dbOneProfile`, updating only `bio` rewrites the
caller's row through `applyProfileUpdate` and leaves the `users` table
untouched. -/
theorem update_me_partial_update_spec_witness :
    ((update_me dbOneProfile "u1" reqBioOnly 1).1.profiles =
      dbOneProfile.profiles.map (fun p =>
        if p.user_id == "u1" then applyProfileUpdate p reqBioOnly 1 else p)) ∧
    (update_me dbOneProfile "u1" reqBioOnly 1).1.users = dbOneProfile.users :=
  ⟨(update_me_partial_update_spec dbOneProfile "u1" reqBioOnly 1).1 (by decide),
   (update_me_partial_update_spec dbOneProfile "u1" reqBioOnly 1).2.2.2.2 rfl⟩

/-- Counterexample to C7 as stated: `RideCreateRequest.title` is declared
`str` with no `min_length`, so a request with the empty title passes boundary
validation and a `rides` row with empty title is created. -/
theorem create_ride_accepts_empty_title :
    validateRideCreate ⟨some "", none, none, none, none, none, none⟩ =
      some ⟨"", none, none, none, none, none, none⟩ ∧
    (createRideEndpoint dbEmpty "u1" ⟨some "", none, none, none, none, none, none⟩
        "r1" 0).1.rides.map (·.title) = [""] :=
  ⟨rfl, rfl⟩

/-- C7 (amended): the title must be present — an absent title is rejected by
boundary validation with no `rides` row created — but it may be empty; when
present, all optional fields are stored verbatim with no calendar validation
and the created ride's `creator_id` is the caller's id. -/
theorem create_ride_spec (s : DB) (callerId : String) (raw : RideCreateRaw)
    (rideId : String) (now : Nat) :
    (raw.title = none → validateRideCreate raw = none ∧
      (createRideEndpoint s callerId raw rideId now).1 = s) ∧
    (∀ t, raw.title = some t →
      (createRideEndpoint s callerId raw rideId now).1.rides =
        s.rides ++ [⟨rideId, some callerId, t, raw.date, raw.time, raw.pace,
          raw.distance_km, raw.start, raw.notes, now⟩]) := by
  constructor
  · intro h
    have hv : validateRideCreate raw = none := by simp [validateRideCreate, h]
    exact ⟨hv, by simp [createRideEndpoint, hv]⟩
  · intro t h
    simp [createRideEndpoint, validateRideCreate, h, create_ride]

/-- Witness for C7: a ride created with only a title stores it verbatim with
the caller as creator. -/
theorem create_ride_spec_witness :
    (createRideEndpoint dbEmpty "u1"
        ⟨some "Saturday Loop", none, none, none, none, none, none⟩ "r1" 0).1.rides =
      dbEmpty.rides ++ [⟨"r1", some "u1", "Saturday Loop", none, none, none,
        none, none, none, 0⟩] :=
  (create_ride_spec dbEmpty "u1"
    ⟨some "Saturday Loop", none, none, none, none, none, none⟩ "r1" 0).2
    "Saturday Loop" rfl

/-- Counterexample to C8 as stated: `RegisterRequest.email` is declared `str`
with no length constraint, so the empty email passes boundary validation
(together with a 6-character password). -/
theorem validate_register_accepts_empty_email :
    validateRegister ⟨some "", some "123456", none⟩ = some ⟨"", "123456", none⟩ := by
  decide

/-- C8 (amended): boundary validation rejects a password shorter than 6
characters (and an absent password or email), and a request failing
validation never reaches the domain logic and creates no rows; but the email
is not checked beyond being a present string — the empty email is accepted. -/
theorem register_validation_spec (s : DB) (raw : RegisterRaw) (newId : String)
    (hashPassword : String → String) (now : Nat) :
    (∀ p, raw.password = some p → p.length < 6 →
      validateRegister raw = none ∧
      registerEndpoint s raw newId hashPassword now = (s, none)) ∧
    (raw.password = none → validateRegister raw = none ∧
      registerEndpoint s raw newId hashPassword now = (s, none)) ∧
    (raw.email = none → validateRegister raw = none ∧
      registerEndpoint s raw newId hashPassword now = (s, none)) ∧
    (∀ e p, raw.email = some e → raw.password = some p → 6 ≤ p.length →
      validateRegister raw = some ⟨e, p, raw.display_name⟩) := by
  refine ⟨?_, ?_, ?_, ?_⟩
  · intro p hp hlen
    have hv : validateRegister raw = none := by
      rcases he : raw.email with _ | e <;>
        simp [validateRegister, hp, he, Nat.not_le.mpr hlen]
    exact ⟨hv, by simp [registerEndpoint, hv]⟩
  · intro hp
    have hv : validateRegister raw = none := by
      rcases he : raw.email with _ | e <;> simp [validateRegister, hp, he]
    exact ⟨hv, by simp [registerEndpoint, hv]⟩
  · intro he
    have hv : validateRegister raw = none := by simp [validateRegister, he]
    exact ⟨hv, by simp [registerEndpoint, hv]⟩
  · intro e p he hp hlen
    simp [validateRegister, he, hp, hlen]

/-- Witness for C8: a 5-character password is rejected at the boundary and
the store is untouched. -/
theorem register_validation_spec_witness :
    validateRegister ⟨some "a@x", some "12345", none⟩ = none ∧
    registerEndpoint dbEmpty ⟨some "a@x", some "12345", none⟩ "id1"
      (fun p => p) 0 = (dbEmpty, none) :=
  (register_validation_spec dbEmpty ⟨some "a@x", some "12345", none⟩ "id1"
    (fun p => p) 0).1 "12345" rfl (by decide)

/-- The in-place update `update(locations).values(...)` rewrites a row to the
caller's id and the new coordinates exactly when the row already carried the
caller's id. -/
theorem upsert_fun_eq (callerId : String) (lat lng : ℝ) (now : Nat) :
    (fun l : LocationRow =>
      if l.user_id == callerId then { l with lat := lat, lng := lng, updated_at := now }
      else l) =
    (fun l : LocationRow =>
      if l.user_id == callerId then ⟨callerId, lat, lng, now⟩ else l) := by
  funext l
  by_cases h : l.user_id = callerId
  · simp only [h, beq_self_eq_true, if_true]
  · simp [h]

/-- Rows of other users survive the in-place update untouched. -/
theorem filter_upsert_map (callerId : String) (lat lng : ℝ) (now : Nat)
    (l : List LocationRow) :
    (l.map (fun x : LocationRow =>
        if x.user_id == callerId then ⟨callerId, lat, lng, now⟩ else x)).filter
      (fun x => !(x.user_id == callerId)) =
    l.filter (fun x => !(x.user_id == callerId)) := by
  induction l with
  | nil => rfl
  | cons x xs ih =>
    rw [List.map_cons]
    by_cases h : x.user_id = callerId
    · have hbeq : (x.user_id == callerId) = true := by simp [h]
      rw [if_pos hbeq, List.filter_cons_of_neg (by simp),
        List.filter_cons_of_neg (by simp [h])]
      exact ih
    · have hbeq : ¬(x.user_id == callerId) = true := by simp [h]
      rw [if_neg hbeq, List.filter_cons_of_pos (by simp [h]),
        List.filter_cons_of_pos (by simp [h]), ih]

/-- One `update_location` call preserves key uniqueness of `locations`. -/
theorem update_location_preserves_unique (s : DB) (c : String) (lat lng : ℝ)
    (now : Nat) (h : UniqueLocKeys s) :
    UniqueLocKeys (update_location s c lat lng now) := by
  unfold UniqueLocKeys at h ⊢
  unfold update_location
  by_cases hex : s.locations.any (fun l => l.user_id == c) = true
  · rw [if_pos hex]
    simp only
    rw [List.pairwise_map]
    refine h.imp ?_
    intro a b hab
    have ha : ∀ x : LocationRow,
        ((if x.user_id == c then { x with lat := lat, lng := lng, updated_at := now }
          else x) : LocationRow).user_id = x.user_id := by
      intro x
      by_cases hx : x.user_id = c
      · simp [hx]
      · simp [hx]
    rw [ha a, ha b]
    exact hab
  · rw [if_neg hex]
    simp only
    rw [List.pairwise_append]
    have hex' : s.locations.any (fun l => l.user_id == c) = false := by
      cases hx : s.locations.any (fun l => l.user_id == c)
      · rfl
      · exact absurd hx hex
    refine ⟨h, List.pairwise_singleton _ _, ?_⟩
    intro a ha b hb
    rw [List.mem_singleton] at hb
    subst hb
    simpa using List.any_eq_false.mp hex' a ha

/-- C10: `update_location` touches only the caller's own `locations` row —
inserting it when absent, otherwise updating every field in place — leaves
every other table and every other user's row unchanged, and preserves
"at most one location row per user" across any sequence of calls. -/
theorem update_location_frame_and_upsert (s : DB) (callerId : String)
    (lat lng : ℝ) (now : Nat) :
    ((update_location s callerId lat lng now).users = s.users ∧
     (update_location s callerId lat lng now).profiles = s.profiles ∧
     (update_location s callerId lat lng now).conversations = s.conversations ∧
     (update_location s callerId lat lng now).participants = s.participants ∧
     (update_location s callerId lat lng now).messages = s.messages ∧
     (update_location s callerId lat lng now).rides = s.rides) ∧
    ((update_location s callerId lat lng now).locations.filter
        (fun l => !(l.user_id == callerId)) =
      s.locations.filter (fun l => !(l.user_id == callerId))) ∧
    (s.locations.any (fun l => l.user_id == callerId) = false →
      (update_location s callerId lat lng now).locations =
        s.locations ++ [⟨callerId, lat, lng, now⟩]) ∧
    (s.locations.any (fun l => l.user_id == callerId) = true →
      (update_location s callerId lat lng now).locations =
        s.locations.map (fun l =>
          if l.user_id == callerId then ⟨callerId, lat, lng, now⟩ else l)) ∧
    (∀ calls : List (String × ℝ × ℝ × Nat), UniqueLocKeys s →
      UniqueLocKeys (calls.foldl
        (fun t c => update_location t c.1 c.2.1 c.2.2.1 c.2.2.2) s)) := by
  refine ⟨?_, ?_, ?_, ?_, ?_⟩
  · cases hex : s.locations.any (fun l => l.user_id == callerId) <;>
      simp [update_location, hex]
  · cases hex : s.locations.any (fun l => l.user_id == callerId)
    · have hex' : ∀ a ∈ s.locations, ¬(a.user_id == callerId) = true :=
        List.any_eq_false.mp hex
      simp only [update_location, hex, Bool.false_eq_true, if_false,
        List.filter_append]
      simp
    · simp only [update_location, hex, if_true, upsert_fun_eq]
      exact filter_upsert_map callerId lat lng now s.locations
  · intro hex
    simp [update_location, hex]
  · intro hex
    simp only [update_location, hex, if_true, upsert_fun_eq]
  · intro calls
    induction calls generalizing s with
    | nil => exact fun h => h
    | cons c cs ih =>
      intro h
      exact ih _ (update_location_preserves_unique s c.1 c.2.1 c.2.2.1 c.2.2.2 h)

/-- Witness for C10: on a store with no location for `u1`, the call inserts
exactly the one new row, and uniqueness is preserved across a sequence of
two calls for the same user. -/
theorem update_location_frame_and_upsert_witness :
    dbTwoUsers.locations.any (fun l => l.user_id == "caller") = false ∧
    (update_location dbTwoUsers "caller" 1 2 5).locations =
      dbTwoUsers.locations ++ [⟨"caller", 1, 2, 5⟩] ∧
    UniqueLocKeys dbTwoUsers ∧
    UniqueLocKeys ([("caller", (1 : ℝ), (2 : ℝ), 5), ("caller", 3, 4, 7)].foldl
      (fun t c => update_location t c.1 c.2.1 c.2.2.1 c.2.2.2) dbTwoUsers) :=
  ⟨rfl,
   (update_location_frame_and_upsert dbTwoUsers "caller" 1 2 5).2.2.1 rfl,
   by simp [UniqueLocKeys, dbTwoUsers],
   (update_location_frame_and_upsert dbTwoUsers "caller" 1 2 5).2.2.2.2
     [("caller", (1 : ℝ), (2 : ℝ), 5), ("caller", 3, 4, 7)]
     (by simp [UniqueLocKeys, dbTwoUsers])⟩

end BikeConnect
